import Mathlib

/-!
Shallow embedding of `src/frontend/src/utils/ChatWSManager.ts` (FishChat).

The class `ChatWSManager` is modelled as a record of its mutable fields; each
method and each registered transport handler (`ws.onopen`, `ws.onmessage`,
`ws.onclose`) becomes a pure function from the record to the updated record
together with an explicit effect record (frames sent on the socket, callbacks
invoked, timers scheduled).  Nondeterministic parts of the environment are
passed as explicit parameters:
  * whether a `ws.send` call throws is given by a failure oracle
    `fail : Nat → Bool` indexed by the send attempts made during one handler
    run;
  * `Math.random() * 300` is a rational `jitter` parameter;
  * whether `new WebSocket(url)` throws is a boolean `ctorOk`;
  * `localStorage.getItem('auth-storage')` and the subsequent
    `JSON.parse(...)?.state?.token` chain is an `AuthStorage` parameter.
Timers are modelled by their presence (`Bool`), since the code only ever asks
whether one is pending; the scheduled delay of the reconnect timer is reported
in the effect record.  Inbound frames are modelled by whether `JSON.parse`
succeeds and, if so, by the string in the frame's `type` field.
-/

namespace FishChat

/-- `type ConnectionState = 'idle' | 'connecting' | 'open' | 'closing' | 'closed'`. -/
inductive ConnectionState where
  | idle
  | connecting
  | «open»
  | closing
  | closed
deriving DecidableEq, Repr

/-- The underlying `WebSocket` object, as far as the manager observes it:
its url and its `readyState` (`WebSocket.OPEN = 1`). -/
structure WS where
  url : String
  readyState : Nat
deriving DecidableEq, Repr

/-- `WebSocket.OPEN`. -/
def WS.OPEN : Nat := 1

/-- The mutable fields of `class ChatWSManager`.  The two timer handles are
modelled by their presence; `awaitingAuthResolve` records whether a pending
auth waiter is registered. -/
structure ChatWSManager where
  ws : Option WS
  url : Option String
  sessionId : Option String
  isAssistantMode : Bool
  state : ConnectionState
  heartbeatTimer : Bool
  reconnectTimer : Bool
  reconnectAttempts : Nat
  explicitlyClosed : Bool
  sendQueue : List String
  authorized : Bool
  awaitingAuthResolve : Bool
  connectedUrl : Option String
  connectedSessionId : Option String
deriving DecidableEq, Repr

namespace ChatWSManager

/-- JavaScript truthiness of `string | null`: `null` and `''` are falsy.
Used for the `if (!this.url || !this.sessionId)` guards. -/
def strFalsy : Option String → Bool
  | none => true
  | some s => s = ""

/-- `const MAX_QUEUE = 100` in `enqueue`. -/
def MAX_QUEUE : Nat := 100

/-- `enqueue(payload)`: if the queue already holds `MAX_QUEUE` entries,
`shift()` the oldest before `push`ing the new payload. -/
def enqueue (q : List String) (payload : String) : List String :=
  (if MAX_QUEUE ≤ q.length then q.tail else q) ++ [payload]

/-- Sequential application of `enqueue` to a list of payloads. -/
def enqueueAll (q : List String) : List String → List String
  | [] => q
  | p :: rest => enqueueAll (enqueue q p) rest

/-- The `while` loop of `flushQueue`, with the send-failure oracle `fail`
indexed from `i`.  Each iteration `shift`s the head off the queue and then
attempts `ws.send`; if the send throws the loop `break`s — the shifted item
has already left the queue and is not restored.  Returns the list of
successfully sent items (in order) and the remaining queue. -/
def flushLoop (fail : Nat → Bool) : Nat → List String → List String × List String
  | _, [] => ([], [])
  | i, item :: rest =>
    if fail i then ([], rest)
    else
      (item :: (flushLoop fail (i + 1) rest).1, (flushLoop fail (i + 1) rest).2)

/-- `flushQueue()`: returns without effect unless the transport exists, its
`readyState` is `OPEN` and the manager is authorized; otherwise drains the
queue via the loop above.  The second component is the list of frames sent. -/
def flushQueue (fail : Nat → Bool) (m : ChatWSManager) : ChatWSManager × List String :=
  match m.ws with
  | none => (m, [])
  | some w =>
    if w.readyState ≠ WS.OPEN ∨ m.authorized = false then (m, [])
    else
      ({ m with sendQueue := (flushLoop fail 0 m.sendQueue).2 },
        (flushLoop fail 0 m.sendQueue).1)

/-- Effects of `close()`: the sequence of values assigned to `this.state`,
and whether `this.ws.close()` was attempted. -/
structure CloseOut where
  stateTrace : List ConnectionState
  wsCloseAttempted : Bool
deriving DecidableEq, Repr

/-- `close()`.  `closeThrows` says whether the underlying `ws.close()` call
throws; the `try { ... } catch {}` swallows it, so execution continues
identically in both cases. -/
def close (closeThrows : Bool) (m : ChatWSManager) : ChatWSManager × CloseOut :=
  let m1 := { m with explicitlyClosed := true, heartbeatTimer := false }
  match m1.ws with
  | some _ =>
    let m2 := { m1 with state := ConnectionState.closing, ws := none }
    let m3 := { m2 with
      state := ConnectionState.closed,
      reconnectTimer := false,
      sendQueue := [],
      authorized := false }
    (m3, ⟨[ConnectionState.closing, ConnectionState.closed],
          closeThrows || !closeThrows⟩)
  | none =>
    let m3 := { m1 with
      state := ConnectionState.closed,
      reconnectTimer := false,
      sendQueue := [],
      authorized := false }
    (m3, ⟨[ConnectionState.closed], false⟩)

/-- `scheduleReconnect()`.  `jitter` stands for `Math.random() * 300`; the
second component is the delay passed to `setTimeout` when a timer was
scheduled, `none` when the call declined to schedule. -/
def scheduleReconnect (jitter : ℚ) (m : ChatWSManager) : ChatWSManager × Option ℚ :=
  if m.explicitlyClosed then (m, none)
  else if strFalsy m.url || strFalsy m.sessionId then (m, none)
  else if m.reconnectTimer then (m, none)
  else
    let base : ℚ := 1000
    let maxDelay : ℚ := 15000
    let attempt := min (m.reconnectAttempts + 1) 10
    let delay := min (base * 2 ^ (attempt - 1)) maxDelay + jitter
    ({ m with reconnectAttempts := attempt, reconnectTimer := true }, some delay)

/-- Effects of the `ws.onclose` handler. -/
structure OncloseOut where
  onCloseInvoked : Bool
  scheduledDelay : Option ℚ
deriving DecidableEq, Repr

/-- The `ws.onclose` handler: set state to closed, stop the heartbeat,
invoke `onClose`, and schedule a reconnect unless explicitly closed. -/
def onclose (jitter : ℚ) (m : ChatWSManager) : ChatWSManager × OncloseOut :=
  let m1 := { m with state := ConnectionState.closed, heartbeatTimer := false }
  if m1.explicitlyClosed then (m1, ⟨true, none⟩)
  else
    ((scheduleReconnect jitter m1).1, ⟨true, (scheduleReconnect jitter m1).2⟩)

/-- What `sendAuthorization` finds in `localStorage`:
`absent` — `getItem('auth-storage')` returns `null`;
`malformed` — `JSON.parse(tokenRaw)` throws;
`noToken` — parsed, but `authData?.state?.token` is missing/falsy;
`token t` — a usable token `t`. -/
inductive AuthStorage where
  | absent
  | malformed
  | noToken
  | token (t : String)
deriving DecidableEq, Repr

/-- `JSON.stringify({ type: 'authorization', token: makeBearer(token) })`
where the token field is the template string interpolation. -/
def authFrame (token : String) : String :=
  "\x7b\"type\":\"authorization\",\"token\":\"Bearer " ++ token ++ "\"\x7d"

/-- `sendAuthorization()`: reads the persisted credential, and sends the
authorization frame via `this.ws?.send(...)` when a token is available.
Returns the frames sent (empty unless a token exists and `ws` is non-null). -/
def sendAuthorization (store : AuthStorage) (m : ChatWSManager) : List String :=
  match store with
  | AuthStorage.token t =>
    match m.ws with
    | some _ => [authFrame t]
    | none => []
  | _ => []

/-- Effects of the `ws.onopen` handler. -/
structure OnopenOut where
  onOpenInvoked : Bool
  heartbeatStarted : Bool
  sent : List String
deriving DecidableEq, Repr

/-- The `ws.onopen` handler: state to open, reset the reconnect attempt
counter, start the heartbeat, invoke `onOpen`, then `sendAuthorization`. -/
def onopen (store : AuthStorage) (m : ChatWSManager) : ChatWSManager × OnopenOut :=
  let m1 := { m with
    state := ConnectionState.«open»,
    reconnectAttempts := 0,
    heartbeatTimer := true }
  (m1, ⟨true, true, sendAuthorization store m1⟩)

/-- An inbound frame, as far as the `ws.onmessage` handler inspects it:
either `JSON.parse(event.data)` yields an object carrying a string field
`type`, or parsing throws / yields nothing usable (any such frame takes the
`catch`/fall-through path). -/
inductive Inbound where
  | parsed (ty : String)
  | unparsed
deriving DecidableEq, Repr

/-- Effects of the `ws.onmessage` handler: frames sent while flushing the
queue, whether `onAuthSuccess` was invoked, the value (if any) a pending
auth waiter was resolved with, and whether the frame was forwarded to
`onMessage`. -/
structure OnmessageOut where
  flushed : List String
  authSuccessCb : Bool
  waiterResolved : Option Bool
  forwarded : Bool
deriving DecidableEq, Repr

/-- Resolve-and-clear of the pending auth waiter, as done inside
`ws.onmessage`: `if (this.awaitingAuthResolve) { this.awaitingAuthResolve(true);
this.awaitingAuthResolve = null; }`. -/
def resolveAuthWaiter (m : ChatWSManager) : ChatWSManager × Option Bool :=
  if m.awaitingAuthResolve then ({ m with awaitingAuthResolve := false }, some true)
  else (m, none)

/-- The `ws.onmessage` handler.  `fail` is the send-failure oracle for any
`flushQueue` run the handler triggers. -/
def onmessage (fail : Nat → Bool) (m : ChatWSManager) (msg : Inbound) :
    ChatWSManager × OnmessageOut :=
  match msg with
  | Inbound.parsed ty =>
    if ty = "auth_success" then
      let m1 := { m with authorized := true }
      let m2 := if m.authorized then m1 else (flushQueue fail m1).1
      let flushed := if m.authorized then [] else (flushQueue fail m1).2
      (( resolveAuthWaiter m2).1,
        ⟨flushed, !m.authorized, (resolveAuthWaiter m2).2, false⟩)
    else if ty = "pong" then
      (m, ⟨[], false, none, false⟩)
    else if ty = "history" ∨ ty = "message" ∨ ty = "reference" ∨ ty = "audio" ∨ ty = "done" then
      if m.authorized then (m, ⟨[], false, none, true⟩)
      else
        let m1 := { m with authorized := true }
        let m2 := (flushQueue fail m1).1
        ((resolveAuthWaiter m2).1,
          ⟨(flushQueue fail m1).2, true, (resolveAuthWaiter m2).2, true⟩)
    else (m, ⟨[], false, none, true⟩)
  | Inbound.unparsed => (m, ⟨[], false, none, true⟩)

/-- Effects of a `connect()` call: whether a new transport was constructed,
whether `close()` ran first (target changed while open), and the delay of a
reconnect timer scheduled on synchronous construction failure. -/
structure ConnectOut where
  created : Bool
  closedFirst : Bool
  scheduledDelay : Option ℚ
deriving DecidableEq, Repr

/-- The tail of `connect()` after the reuse check: the concurrent-connect
guard, then flag resets and transport construction (`ctorOk` says whether
`new WebSocket(url)` returns normally), with the `catch` branch scheduling a
reconnect. -/
def connectProceed (ctorOk : Bool) (jitter : ℚ) (closedFirst : Bool)
    (m : ChatWSManager) : ChatWSManager × ConnectOut :=
  if m.state = ConnectionState.connecting then (m, ⟨false, closedFirst, none⟩)
  else
    let m1 := { m with
      explicitlyClosed := false,
      authorized := false,
      state := ConnectionState.connecting }
    if ctorOk then
      let w : WS := ⟨m1.url.getD "", 0⟩
      ({ m1 with
          ws := some w,
          connectedUrl := m1.url,
          connectedSessionId := m1.sessionId },
        ⟨true, closedFirst, none⟩)
    else
      let m2 := { m1 with state := ConnectionState.closed }
      ((scheduleReconnect jitter m2).1,
        ⟨false, closedFirst, (scheduleReconnect jitter m2).2⟩)

/-- `connect()`: the falsy-target guard, the open-transport reuse check
(close-and-reconnect when the recorded target differs), then the common
tail. -/
def connect (ctorOk : Bool) (jitter : ℚ) (m : ChatWSManager) :
    ChatWSManager × ConnectOut :=
  if strFalsy m.url || strFalsy m.sessionId then (m, ⟨false, false, none⟩)
  else
    match m.ws with
    | some w =>
      if m.state = ConnectionState.«open» ∧ w.readyState = WS.OPEN then
        if m.connectedUrl = m.url ∧ m.connectedSessionId = m.sessionId then
          (m, ⟨false, false, none⟩)
        else
          let (m1, _) := close false m
          connectProceed ctorOk jitter true m1
      else connectProceed ctorOk jitter false m
    | none => connectProceed ctorOk jitter false m

/-- The argument record of `updateSessionContext`. -/
structure SessionOptions where
  url : String
  sessionId : String
  isAssistantMode : Bool
deriving DecidableEq, Repr

/-- `updateSessionContext(options)`: store the three context fields, and if a
transport exists, the state is open and any field changed, invoke `close()`.
The boolean reports whether `close()` was invoked. -/
def updateSessionContext (o : SessionOptions) (m : ChatWSManager) :
    ChatWSManager × Bool :=
  let urlChanged := m.url ≠ some o.url
  let sessionChanged := m.sessionId ≠ some o.sessionId
  let modeChanged := m.isAssistantMode ≠ o.isAssistantMode
  let m1 := { m with
    url := some o.url,
    sessionId := some o.sessionId,
    isAssistantMode := o.isAssistantMode }
  if m1.ws.isSome ∧ m1.state = ConnectionState.«open» ∧
      (urlChanged ∨ sessionChanged ∨ modeChanged) then
    ((close false m1).1, true)
  else (m1, false)

/-- The waiter closure created by `ensureAuthorized`: the `settled` flag, the
pending `setTimeout` timer (with the registered duration), recorded so the
two resolution paths can be replayed as events. -/
structure PendingWaiter where
  settled : Bool
  timerActive : Bool
  timeoutMs : Nat
deriving DecidableEq, Repr

/-- The synchronous outcome of `ensureAuthorized`: either it returns a
boolean without suspending, or it suspends having registered a waiter. -/
inductive EnsureOutcome where
  | immediate (b : Bool)
  | suspended (w : PendingWaiter)
deriving DecidableEq, Repr

/-- The test `this.ws && this.ws.readyState === WebSocket.OPEN` used by
`ensureAuthorized`. -/
def wsOpen (m : ChatWSManager) : Bool :=
  match m.ws with
  | some w => w.readyState = WS.OPEN
  | none => false

/-- `ensureAuthorized(timeoutMs)` up to its first suspension: the fast path
(open transport and already authorized → `true`, nothing registered), the
side-effecting `connect()` when the transport is not open, the second
authorized check, and otherwise registration of the waiter and its timer. -/
def ensureAuthorized (ctorOk : Bool) (jitter : ℚ) (timeoutMs : Nat)
    (m : ChatWSManager) : ChatWSManager × EnsureOutcome :=
  if wsOpen m && m.authorized then (m, EnsureOutcome.immediate true)
  else
    let m1 := if wsOpen m then m else (connect ctorOk jitter m).1
    if m1.authorized then (m1, EnsureOutcome.immediate true)
    else
      ({ m1 with awaitingAuthResolve := true },
        EnsureOutcome.suspended ⟨false, true, timeoutMs⟩)

/-- The `setTimeout` callback of the waiter firing: if not settled, settle,
clear the manager's waiter slot and resolve `false`.  The third component is
the value delivered to the suspended caller, `none` when the firing had no
effect. -/
def waiterTimeout (m : ChatWSManager) (w : PendingWaiter) :
    ChatWSManager × PendingWaiter × Option Bool :=
  if w.settled then (m, w, none)
  else ({ m with awaitingAuthResolve := false },
        { w with settled := true }, some false)

/-- The resolver stored in `awaitingAuthResolve` being invoked with `v`: if
not settled, settle, `clearTimeout` the timer and resolve `v`. -/
def waiterResolve (v : Bool) (w : PendingWaiter) : PendingWaiter × Option Bool :=
  if w.settled then (w, none)
  else ({ w with settled := true, timerActive := false }, some v)

/-! Concrete states used to exercise the definitions. -/

/-- A transport in `readyState = OPEN`. -/
def demoWS : WS := ⟨"ws://host/chat", 1⟩

/-- An open, authorized manager with an empty queue. -/
def demoMgr : ChatWSManager where
  ws := some demoWS
  url := some "ws://host/chat"
  sessionId := some "s1"
  isAssistantMode := false
  state := ConnectionState.«open»
  heartbeatTimer := true
  reconnectTimer := false
  reconnectAttempts := 0
  explicitlyClosed := false
  sendQueue := []
  authorized := true
  awaitingAuthResolve := false
  connectedUrl := some "ws://host/chat"
  connectedSessionId := some "s1"

/-- Ten queued payloads. -/
def queue10 : List String :=
  ["m1", "m2", "m3", "m4", "m5", "m6", "m7", "m8", "m9", "m10"]

/-- A send-failure oracle under which exactly the fifth send attempt
(index 4) throws. -/
def failAt4 : Nat → Bool := fun i => i == 4

/-- An oracle under which no send throws. -/
def noFail : Nat → Bool := fun _ => false

/-- The open, authorized manager with ten queued payloads. -/
def flushDemoMgr : ChatWSManager := { demoMgr with sendQueue := queue10 }

end ChatWSManager

open ChatWSManager

/-! ### Lemmas about the flush loop -/

/-- If the sends at offsets `i, i+1, …, i+k-1` succeed and the one at `i+k`
throws, the loop sends the first `k` items and leaves the queue without the
first `k + 1` items: the item whose send threw was shifted off and lost. -/
theorem flushLoop_stops (fail : Nat → Bool) :
    ∀ (q : List String) (i k : Nat),
      (∀ j, j < k → fail (i + j) = false) → fail (i + k) = true →
      k < q.length →
      flushLoop fail i q = (q.take k, q.drop (k + 1)) := by
  intro q
  induction q with
  | nil =>
    intro i k _ _ hk
    exact absurd hk (by simp)
  | cons item rest ih =>
    intro i k hok hfail hk
    cases k with
    | zero =>
      have h0 : fail i = true := by simpa using hfail
      simp [flushLoop, h0]
    | succ k =>
      have h0 : fail i = false := by simpa using hok 0 (Nat.succ_pos k)
      have ihq := ih (i + 1) k
        (fun j hj => by
          have h := hok (j + 1) (Nat.succ_lt_succ hj)
          have e : i + 1 + j = i + (j + 1) := by omega
          rw [e]; exact h)
        (by
          have e : i + 1 + k = i + (k + 1) := by omega
          rw [e]; exact hfail)
        (Nat.lt_of_succ_lt_succ hk)
      simp [flushLoop, h0, ihq]

/-- With no send failure the loop sends everything and empties the queue. -/
theorem flushLoop_all (fail : Nat → Bool) (hfail : ∀ j, fail j = false) :
    ∀ (q : List String) (i : Nat), flushLoop fail i q = (q, []) := by
  intro q
  induction q with
  | nil => intro i; simp [flushLoop]
  | cons item rest ih => intro i; simp [flushLoop, hfail i, ih (i + 1)]

/-! ### Claim C1 -/

/-- C1, as stated, is false: with ten queued messages and the fifth send
throwing, messages 1–4 are sent in order, but the failed fifth message `"m5"`
is NOT left in the queue — only messages 6–10 remain. -/
theorem C1_counterexample :
    (flushQueue failAt4 flushDemoMgr).2 = ["m1", "m2", "m3", "m4"] ∧
    (flushQueue failAt4 flushDemoMgr).1.sendQueue = ["m6", "m7", "m8", "m9", "m10"] ∧
    "m5" ∉ (flushQueue failAt4 flushDemoMgr).1.sendQueue := by decide

/-- C1 (amended): when `flushQueue` runs with the transport open and the
manager authorized, it drains strictly in FIFO order, one send per iteration;
on the first synchronous send failure (attempt `k`) it stops draining, having
sent the first `k` messages in order — the failed message has already been
shifted off the queue and is dropped, while every message queued after it
remains in the queue in original order; with no failure the whole queue is
sent in order and the queue is left empty. -/
theorem C1_flush_fifo_partial_failure
    (fail : Nat → Bool) (m : ChatWSManager) (w : WS) (k : Nat)
    (hws : m.ws = some w) (hopen : w.readyState = WS.OPEN)
    (hauth : m.authorized = true) (hok : ∀ j, j < k → fail j = false) :
    (fail k = true → k < m.sendQueue.length →
      flushQueue fail m =
        ({ m with sendQueue := m.sendQueue.drop (k + 1) }, m.sendQueue.take k)) ∧
    ((∀ j, fail j = false) →
      flushQueue fail m = ({ m with sendQueue := [] }, m.sendQueue)) := by
  constructor
  · intro hf hk
    have h := flushLoop_stops fail m.sendQueue 0 k (by simpa using hok)
      (by simpa using hf) hk
    simp [flushQueue, hws, hopen, hauth, h]
  · intro hnone
    have h := flushLoop_all fail hnone m.sendQueue 0
    simp [flushQueue, hws, hopen, hauth, h]

/-- C1 witness: the amended theorem applied to the ten-message queue with the
fifth send failing. -/
theorem C1_flush_fifo_partial_failure_witness :
    flushQueue failAt4 flushDemoMgr =
      ({ flushDemoMgr with sendQueue := queue10.drop 5 }, queue10.take 4) :=
  (C1_flush_fifo_partial_failure failAt4 flushDemoMgr demoWS 4 rfl rfl rfl
    (by decide)).1 (by decide) (by decide)

/-! ### Claim C3 -/

/-- `enqueue` preserves the queue bound `MAX_QUEUE`. -/
theorem enqueue_length_le (q : List String) (p : String) (h : q.length ≤ MAX_QUEUE) :
    (enqueue q p).length ≤ MAX_QUEUE := by
  unfold enqueue
  by_cases hq : MAX_QUEUE ≤ q.length
  · rw [if_pos hq]
    cases q with
    | nil => simp [MAX_QUEUE] at hq
    | cons a t =>
      simp only [List.tail_cons, List.length_append, List.length_cons,
        List.length_nil]
      simp only [List.length_cons] at h hq
      omega
  · rw [if_neg hq]
    simp only [List.length_append, List.length_cons, List.length_nil]
    omega

/-- Sequential enqueueing keeps the most recent `MAX_QUEUE` payloads:
starting from a queue within the bound, the result is the concatenation with
its oldest overflow dropped. -/
theorem enqueueAll_drop :
    ∀ (msgs q : List String), q.length ≤ MAX_QUEUE →
      enqueueAll q msgs = (q ++ msgs).drop (q.length + msgs.length - MAX_QUEUE) := by
  intro msgs
  induction msgs with
  | nil =>
    intro q hq
    have h0 : q.length - MAX_QUEUE = 0 := Nat.sub_eq_zero_of_le hq
    simp [enqueueAll, h0]
  | cons p rest ih =>
    intro q hq
    rw [show enqueueAll q (p :: rest) = enqueueAll (enqueue q p) rest from rfl]
    rw [ih (enqueue q p) (enqueue_length_le q p hq)]
    by_cases hfull : MAX_QUEUE ≤ q.length
    · have hlen : q.length = MAX_QUEUE := le_antisymm hq hfull
      cases q with
      | nil => simp [MAX_QUEUE] at hlen
      | cons a t =>
        have ht : t.length + 1 = MAX_QUEUE := by simpa using hlen
        have he : enqueue (a :: t) p = t ++ [p] := by
          unfold enqueue
          rw [if_pos hfull]
          rfl
        have e1 : (t ++ [p]).length + rest.length - MAX_QUEUE = rest.length := by
          simp only [List.length_append, List.length_cons, List.length_nil]
          omega
        have e2 : (a :: t).length + (p :: rest).length - MAX_QUEUE = rest.length + 1 := by
          simp only [List.length_cons]
          omega
        rw [he, List.append_assoc, List.singleton_append, List.cons_append]
        rw [e1, e2, List.drop_succ_cons]
    · have he : enqueue q p = q ++ [p] := by
        unfold enqueue
        rw [if_neg hfull]
      rw [he, List.append_assoc, List.singleton_append]
      have e : (q ++ [p]).length + rest.length - MAX_QUEUE
          = q.length + (p :: rest).length - MAX_QUEUE := by
        simp only [List.length_append, List.length_cons, List.length_nil]
        omega
      rw [e]

/-- C3: the outbound queue never exceeds the capacity of 100 (`enqueue`
preserves the bound), and after 101 sequential enqueues starting empty the
queue equals the last 100 payloads in original relative order — length
exactly 100, and the first-enqueued payload (when not re-enqueued later) is
absent. -/
theorem C3_queue_bound :
    (∀ (q : List String) (p : String), q.length ≤ MAX_QUEUE →
      (enqueue q p).length ≤ MAX_QUEUE) ∧
    (∀ msgs : List String, msgs.length = 101 →
      enqueueAll [] msgs = msgs.tail ∧
      (enqueueAll [] msgs).length = 100 ∧
      ∀ h0, msgs.head? = some h0 → h0 ∉ msgs.tail → h0 ∉ enqueueAll [] msgs) := by
  refine ⟨enqueue_length_le, ?_⟩
  intro msgs hlen
  have hd : enqueueAll [] msgs = msgs.tail := by
    have h := enqueueAll_drop msgs [] (by simp [MAX_QUEUE])
    rw [h]
    simp [hlen, MAX_QUEUE, List.drop_one]
  refine ⟨hd, ?_, ?_⟩
  · rw [hd]
    simp [hlen]
  · intro h0 _ hnot
    rw [hd]
    exact hnot

/-- C3 witness: the bound at capacity and the 101-enqueue scenario on the
payloads `"0", "1", …, "100"`. -/
theorem C3_queue_bound_witness :
    (enqueue ((List.range 100).map (fun n => toString n)) "x").length ≤ MAX_QUEUE ∧
    enqueueAll [] ((List.range 101).map (fun n => toString n)) =
      ((List.range 101).map (fun n => toString n)).tail ∧
    "0" ∉ enqueueAll [] ((List.range 101).map (fun n => toString n)) := by
  refine ⟨C3_queue_bound.1 _ "x" (by decide), ?_, ?_⟩
  · exact (C3_queue_bound.2 _ (by decide)).1
  · exact (C3_queue_bound.2 _ (by decide)).2.2 "0" (by decide) (by decide)

/-! ### Claim C2 -/

/-- C2: on the transport's open event while Connecting, the manager
transitions to Open, resets the reconnect attempt counter to zero, starts
the heartbeat, invokes `onOpen`, and — the persisted-credential store
holding token `t` — emits exactly one authorization frame,
`{"type":"authorization","token":"Bearer <t>"}`. -/
theorem C2_onopen_authorization
    (m : ChatWSManager) (w : WS) (t : String)
    (_hstate : m.state = ConnectionState.connecting) (hws : m.ws = some w) :
    (onopen (AuthStorage.token t) m).1.state = ConnectionState.«open» ∧
    (onopen (AuthStorage.token t) m).1.reconnectAttempts = 0 ∧
    (onopen (AuthStorage.token t) m).1.heartbeatTimer = true ∧
    (onopen (AuthStorage.token t) m).2.onOpenInvoked = true ∧
    (onopen (AuthStorage.token t) m).2.heartbeatStarted = true ∧
    (onopen (AuthStorage.token t) m).2.sent = [authFrame t] ∧
    (onopen (AuthStorage.token t) m).2.sent.length = 1 := by
  simp [onopen, sendAuthorization, hws]

/-- C2 witness: the open event on a connecting manager with a stored token. -/
theorem C2_onopen_authorization_witness :
    (onopen (AuthStorage.token "tok")
        { demoMgr with state := ConnectionState.connecting, authorized := false }).2.sent
      = [authFrame "tok"] ∧
    (onopen (AuthStorage.token "tok")
        { demoMgr with state := ConnectionState.connecting, authorized := false }).1.state
      = ConnectionState.«open» :=
  ⟨(C2_onopen_authorization _ demoWS "tok" rfl rfl).2.2.2.2.2.1,
   (C2_onopen_authorization _ demoWS "tok" rfl rfl).1⟩

/-! ### Lemmas about the message handler -/

/-- `flushQueue` only changes the queue. -/
theorem flushQueue_fields (fail : Nat → Bool) (m : ChatWSManager) :
    (flushQueue fail m).1.authorized = m.authorized ∧
    (flushQueue fail m).1.awaitingAuthResolve = m.awaitingAuthResolve ∧
    (flushQueue fail m).1.ws = m.ws := by
  rcases hw : m.ws with _ | w
  · simp [flushQueue, hw]
  · by_cases hc : w.readyState ≠ WS.OPEN ∨ m.authorized = false
    · simp [flushQueue, hw, hc]
    · simp [flushQueue, hw, hc]

/-- When the transport is open, the manager authorized and no send throws,
`flushQueue` sends the whole queue in order and empties it. -/
theorem flushQueue_all_sends (fail : Nat → Bool) (m : ChatWSManager) (w : WS)
    (hws : m.ws = some w) (hopen : w.readyState = WS.OPEN)
    (hauth : m.authorized = true) (hnf : ∀ j, fail j = false) :
    flushQueue fail m = ({ m with sendQueue := [] }, m.sendQueue) := by
  have h := flushLoop_all fail hnf m.sendQueue 0
  simp [flushQueue, hws, hopen, hauth, h]

/-- `resolveAuthWaiter` clears the slot, resolves a present waiter with
`true`, and changes nothing else. -/
theorem resolveAuthWaiter_spec (m : ChatWSManager) :
    (resolveAuthWaiter m).1.awaitingAuthResolve = false ∧
    (resolveAuthWaiter m).2 = (if m.awaitingAuthResolve then some true else none) ∧
    (resolveAuthWaiter m).1.authorized = m.authorized ∧
    (resolveAuthWaiter m).1.sendQueue = m.sendQueue := by
  by_cases h : m.awaitingAuthResolve <;> simp [resolveAuthWaiter, h]

/-- An `auth_success` frame always leaves the manager authorized. -/
theorem onmessage_auth_success_authorized (fail : Nat → Bool) (m : ChatWSManager) :
    (onmessage fail m (Inbound.parsed "auth_success")).1.authorized = true := by
  by_cases hauth : m.authorized
  · have hs := (resolveAuthWaiter_spec ({ m with authorized := true } : ChatWSManager)).2.2.1
    simp [onmessage, hauth, hs]
  · have h1 := (flushQueue_fields fail ({ m with authorized := true } : ChatWSManager)).1
    have h2 := (resolveAuthWaiter_spec
      ((flushQueue fail ({ m with authorized := true } : ChatWSManager)).1)).2.2.1
    simp [onmessage, hauth, h2, h1]

/-- The waiter, callback and forwarding behaviour of an `auth_success`
frame, for any prior authorization state. -/
theorem onmessage_auth_success_effects (fail : Nat → Bool) (m : ChatWSManager) :
    (onmessage fail m (Inbound.parsed "auth_success")).1.awaitingAuthResolve = false ∧
    (onmessage fail m (Inbound.parsed "auth_success")).2.waiterResolved
      = (if m.awaitingAuthResolve then some true else none) ∧
    (onmessage fail m (Inbound.parsed "auth_success")).2.authSuccessCb = !m.authorized ∧
    (onmessage fail m (Inbound.parsed "auth_success")).2.forwarded = false := by
  by_cases hauth : m.authorized
  · have hs := resolveAuthWaiter_spec ({ m with authorized := true } : ChatWSManager)
    simp [onmessage, hauth, hs.1, hs.2.1]
  · have hfq := flushQueue_fields fail ({ m with authorized := true } : ChatWSManager)
    have hs := resolveAuthWaiter_spec
      ((flushQueue fail ({ m with authorized := true } : ChatWSManager)).1)
    simp [onmessage, hauth, hs.1, hs.2.1, hfq.2.1]

/-- Characterization of the `auth_success` branch when previously
unauthorized: flush, callback, waiter resolution, no forwarding. -/
theorem onmessage_auth_success_unauth (fail : Nat → Bool) (m : ChatWSManager)
    (hauth : m.authorized = false) :
    onmessage fail m (Inbound.parsed "auth_success") =
      ((resolveAuthWaiter ((flushQueue fail { m with authorized := true }).1)).1,
        ⟨(flushQueue fail { m with authorized := true }).2, true,
          (resolveAuthWaiter ((flushQueue fail { m with authorized := true }).1)).2,
          false⟩) := by
  simp [onmessage, hauth]

/-! ### Claim C4 -/

/-- C4: `auth_success` is idempotent with respect to authorization.  On the
first such frame while unauthorized (transport open, no send failure) the
manager becomes authorized, the queue is flushed in full and `onAuthSuccess`
is invoked; two consecutive frames invoke `onAuthSuccess` exactly once; in
every case a pending auth waiter is resolved with `true` and the slot is
cleared; the frame is never forwarded to `onMessage`. -/
theorem C4_auth_success_idempotent :
    (∀ (fail : Nat → Bool) (m : ChatWSManager) (w : WS),
      m.authorized = false → m.ws = some w → w.readyState = WS.OPEN →
      (∀ j, fail j = false) →
      (onmessage fail m (Inbound.parsed "auth_success")).1.authorized = true ∧
      (onmessage fail m (Inbound.parsed "auth_success")).2.authSuccessCb = true ∧
      (onmessage fail m (Inbound.parsed "auth_success")).2.flushed = m.sendQueue ∧
      (onmessage fail m (Inbound.parsed "auth_success")).1.sendQueue = []) ∧
    (∀ (fail : Nat → Bool) (m : ChatWSManager), m.authorized = false →
      (onmessage fail m (Inbound.parsed "auth_success")).2.authSuccessCb = true ∧
      (onmessage fail (onmessage fail m (Inbound.parsed "auth_success")).1
          (Inbound.parsed "auth_success")).2.authSuccessCb = false) ∧
    (∀ (fail : Nat → Bool) (m : ChatWSManager),
      (m.awaitingAuthResolve = true →
        (onmessage fail m (Inbound.parsed "auth_success")).2.waiterResolved = some true) ∧
      (onmessage fail m (Inbound.parsed "auth_success")).1.awaitingAuthResolve = false) ∧
    (∀ (fail : Nat → Bool) (m : ChatWSManager),
      (onmessage fail m (Inbound.parsed "auth_success")).2.forwarded = false) := by
  refine ⟨?_, ?_, ?_, ?_⟩
  · intro fail m w hauth hws hopen hnf
    have h1 : ({ m with authorized := true } : ChatWSManager).ws = some w := hws
    have hflush := flushQueue_all_sends fail { m with authorized := true } w h1 hopen rfl hnf
    have hs := resolveAuthWaiter_spec
      ((flushQueue fail ({ m with authorized := true } : ChatWSManager)).1)
    have hu := onmessage_auth_success_unauth fail m hauth
    refine ⟨onmessage_auth_success_authorized fail m, ?_, ?_, ?_⟩
    · rw [hu]
    · rw [hu]
      simp [hflush]
    · rw [hu]
      show (resolveAuthWaiter
        ((flushQueue fail ({ m with authorized := true } : ChatWSManager)).1)).1.sendQueue = []
      rw [hs.2.2.2, hflush]
  · intro fail m hauth
    refine ⟨by simpa [hauth] using (onmessage_auth_success_effects fail m).2.2.1, ?_⟩
    have hA := onmessage_auth_success_authorized fail m
    have h2 := (onmessage_auth_success_effects fail
      (onmessage fail m (Inbound.parsed "auth_success")).1).2.2.1
    rw [h2, hA]
    rfl
  · intro fail m
    refine ⟨fun hwait => ?_, (onmessage_auth_success_effects fail m).1⟩
    rw [(onmessage_auth_success_effects fail m).2.1]
    simp [hwait]
  · intro fail m
    exact (onmessage_auth_success_effects fail m).2.2.2

/-- C4 witness: two consecutive `auth_success` frames on an unauthorized
open manager with a two-message queue and a pending waiter. -/
theorem C4_auth_success_idempotent_witness :
    (onmessage noFail
        { demoMgr with
          authorized := false,
          awaitingAuthResolve := true,
          sendQueue := ["q1", "q2"] }
        (Inbound.parsed "auth_success")).2.authSuccessCb = true ∧
    (onmessage noFail
        (onmessage noFail
          { demoMgr with
            authorized := false,
            awaitingAuthResolve := true,
            sendQueue := ["q1", "q2"] }
          (Inbound.parsed "auth_success")).1
        (Inbound.parsed "auth_success")).2.authSuccessCb = false ∧
    (onmessage noFail
        { demoMgr with
          authorized := false,
          awaitingAuthResolve := true,
          sendQueue := ["q1", "q2"] }
        (Inbound.parsed "auth_success")).2.waiterResolved = some true ∧
    (onmessage noFail
        { demoMgr with
          authorized := false,
          awaitingAuthResolve := true,
          sendQueue := ["q1", "q2"] }
        (Inbound.parsed "auth_success")).2.flushed = ["q1", "q2"] :=
  ⟨(C4_auth_success_idempotent.2.1 noFail _ rfl).1,
   (C4_auth_success_idempotent.2.1 noFail _ rfl).2,
   (C4_auth_success_idempotent.2.2.1 noFail _).1 rfl,
   (C4_auth_success_idempotent.1 noFail _ demoWS rfl rfl rfl
      (fun _ => rfl)).2.2.1⟩

/-! ### Claim C5 -/

/-- Characterization of the implicit-authorization branch: a known business
frame received while unauthorized authorizes, flushes, invokes the callback,
resolves the waiter, and is forwarded. -/
theorem onmessage_business_unauth (fail : Nat → Bool) (m : ChatWSManager) (ty : String)
    (hty : ty = "history" ∨ ty = "message" ∨ ty = "reference" ∨ ty = "audio" ∨ ty = "done")
    (hauth : m.authorized = false) :
    onmessage fail m (Inbound.parsed ty) =
      ((resolveAuthWaiter ((flushQueue fail { m with authorized := true }).1)).1,
        ⟨(flushQueue fail { m with authorized := true }).2, true,
          (resolveAuthWaiter ((flushQueue fail { m with authorized := true }).1)).2,
          true⟩) := by
  rcases hty with h | h | h | h | h <;> subst h <;> simp [onmessage, hauth]

/-- C5: a business frame (`history`, `message`, `reference`, `audio`,
`done`) received while unauthorized triggers the same authorization side
effects as `auth_success` — Authorized set, queue flushed, `onAuthSuccess`
invoked, pending waiter resolved with `true` and cleared — and the frame is
additionally forwarded to `onMessage`; the same frame received while already
authorized is forwarded with no other effect on the manager. -/
theorem C5_implicit_authorization :
    (∀ (fail : Nat → Bool) (m : ChatWSManager) (w : WS) (ty : String),
      (ty = "history" ∨ ty = "message" ∨ ty = "reference" ∨ ty = "audio" ∨ ty = "done") →
      m.authorized = false → m.ws = some w → w.readyState = WS.OPEN →
      (∀ j, fail j = false) →
      (onmessage fail m (Inbound.parsed ty)).1.authorized = true ∧
      (onmessage fail m (Inbound.parsed ty)).2.authSuccessCb = true ∧
      (onmessage fail m (Inbound.parsed ty)).2.flushed = m.sendQueue ∧
      (onmessage fail m (Inbound.parsed ty)).1.sendQueue = [] ∧
      (m.awaitingAuthResolve = true →
        (onmessage fail m (Inbound.parsed ty)).2.waiterResolved = some true) ∧
      (onmessage fail m (Inbound.parsed ty)).1.awaitingAuthResolve = false ∧
      (onmessage fail m (Inbound.parsed ty)).2.forwarded = true) ∧
    (∀ (fail : Nat → Bool) (m : ChatWSManager) (ty : String),
      (ty = "history" ∨ ty = "message" ∨ ty = "reference" ∨ ty = "audio" ∨ ty = "done") →
      m.authorized = true →
      onmessage fail m (Inbound.parsed ty) = (m, ⟨[], false, none, true⟩)) := by
  constructor
  · intro fail m w ty hty hauth hws hopen hnf
    have h1 : ({ m with authorized := true } : ChatWSManager).ws = some w := hws
    have hflush := flushQueue_all_sends fail { m with authorized := true } w h1 hopen rfl hnf
    have hs := resolveAuthWaiter_spec
      ((flushQueue fail ({ m with authorized := true } : ChatWSManager)).1)
    have hfq := flushQueue_fields fail ({ m with authorized := true } : ChatWSManager)
    have hb := onmessage_business_unauth fail m ty hty hauth
    have e1 : (onmessage fail m (Inbound.parsed ty)).1
        = (resolveAuthWaiter
            ((flushQueue fail ({ m with authorized := true } : ChatWSManager)).1)).1 := by
      rw [hb]
    have e2 : (onmessage fail m (Inbound.parsed ty)).2
        = ⟨(flushQueue fail ({ m with authorized := true } : ChatWSManager)).2, true,
            (resolveAuthWaiter
              ((flushQueue fail ({ m with authorized := true } : ChatWSManager)).1)).2,
            true⟩ := by
      rw [hb]
    refine ⟨?_, ?_, ?_, ?_, ?_, ?_, ?_⟩
    · rw [e1, hs.2.2.1, hfq.1]
    · rw [e2]
    · rw [e2]
      show (flushQueue fail ({ m with authorized := true } : ChatWSManager)).2 = m.sendQueue
      rw [hflush]
    · rw [e1, hs.2.2.2, hflush]
    · intro hwait
      rw [e2]
      show (resolveAuthWaiter
        ((flushQueue fail ({ m with authorized := true } : ChatWSManager)).1)).2 = some true
      rw [hs.2.1, hfq.2.1]
      simp [hwait]
    · rw [e1, hs.1]
    · rw [e2]
  · intro fail m ty hty hauth
    rcases hty with h | h | h | h | h <;> subst h <;> simp [onmessage, hauth]

/-- C5 witness: a `history` frame on an unauthorized open manager with a
queued message and a pending waiter, and the same frame when authorized. -/
theorem C5_implicit_authorization_witness :
    (onmessage noFail
        { demoMgr with
          authorized := false,
          awaitingAuthResolve := true,
          sendQueue := ["q1"] }
        (Inbound.parsed "history")).1.authorized = true ∧
    (onmessage noFail
        { demoMgr with
          authorized := false,
          awaitingAuthResolve := true,
          sendQueue := ["q1"] }
        (Inbound.parsed "history")).2.forwarded = true ∧
    (onmessage noFail
        { demoMgr with
          authorized := false,
          awaitingAuthResolve := true,
          sendQueue := ["q1"] }
        (Inbound.parsed "history")).2.flushed = ["q1"] ∧
    onmessage noFail demoMgr (Inbound.parsed "history")
      = (demoMgr, ⟨[], false, none, true⟩) :=
  ⟨(C5_implicit_authorization.1 noFail _ demoWS "history" (Or.inl rfl) rfl rfl rfl
      (fun _ => rfl)).1,
   (C5_implicit_authorization.1 noFail _ demoWS "history" (Or.inl rfl) rfl rfl rfl
      (fun _ => rfl)).2.2.2.2.2.2,
   (C5_implicit_authorization.1 noFail _ demoWS "history" (Or.inl rfl) rfl rfl rfl
      (fun _ => rfl)).2.2.1,
   C5_implicit_authorization.2 noFail demoMgr "history" (Or.inl rfl) rfl⟩

/-! ### Claim C6 -/

/-- `connect` while Connecting is a no-op. -/
theorem connect_connecting (ctorOk : Bool) (j : ℚ) (m : ChatWSManager)
    (h : m.state = ConnectionState.connecting) :
    connect ctorOk j m = (m, ⟨false, false, none⟩) := by
  unfold connect
  by_cases hf : strFalsy m.url || strFalsy m.sessionId
  · simp [hf]
  · rcases hw : m.ws with _ | w
    · simp [hf, hw, connectProceed, h]
    · simp [hf, hw, connectProceed, h]

/-- A `connect` from a transportless, non-connecting state with a usable
target constructs exactly one transport and moves to Connecting. -/
theorem connect_creates (j : ℚ) (m : ChatWSManager)
    (hfu : strFalsy m.url = false) (hfs : strFalsy m.sessionId = false)
    (hws : m.ws = none) (hst : m.state ≠ ConnectionState.connecting) :
    connect true j m =
      ({ m with
          explicitlyClosed := false,
          authorized := false,
          state := ConnectionState.connecting,
          ws := some ⟨m.url.getD "", 0⟩,
          connectedUrl := m.url,
          connectedSessionId := m.sessionId },
        ⟨true, false, none⟩) := by
  unfold connect connectProceed
  simp [hfu, hfs, hws, hst]

/-- C6: `connect()` is idempotent and reusing — a no-op without a target,
an immediate return (no new transport) when an open transport to the same
recorded target exists, a no-op while Connecting, and hence two calls while
Connecting construct exactly one transport. -/
theorem C6_connect_idempotent :
    (∀ (ctorOk : Bool) (j : ℚ) (m : ChatWSManager),
      m.url = none ∨ m.sessionId = none →
      connect ctorOk j m = (m, ⟨false, false, none⟩)) ∧
    (∀ (ctorOk : Bool) (j : ℚ) (m : ChatWSManager) (w : WS),
      m.ws = some w → m.state = ConnectionState.«open» → w.readyState = WS.OPEN →
      m.connectedUrl = m.url → m.connectedSessionId = m.sessionId →
      connect ctorOk j m = (m, ⟨false, false, none⟩)) ∧
    (∀ (ctorOk : Bool) (j : ℚ) (m : ChatWSManager),
      m.state = ConnectionState.connecting →
      connect ctorOk j m = (m, ⟨false, false, none⟩)) ∧
    (∀ (j : ℚ) (m : ChatWSManager),
      strFalsy m.url = false → strFalsy m.sessionId = false →
      m.ws = none → m.state ≠ ConnectionState.connecting →
      (connect true j m).2.created = true ∧
      (connect true j m).1.state = ConnectionState.connecting ∧
      connect true j (connect true j m).1
        = ((connect true j m).1, ⟨false, false, none⟩)) := by
  refine ⟨?_, ?_, ?_, ?_⟩
  · intro ctorOk j m h
    unfold connect
    rcases h with h | h <;> simp [strFalsy, h]
  · intro ctorOk j m w hws hst hrs hcu hcs
    unfold connect
    by_cases hf : strFalsy m.url || strFalsy m.sessionId
    · simp [hf]
    · simp [hf, hws, hst, hrs, hcu, hcs]
  · intro ctorOk j m h
    exact connect_connecting ctorOk j m h
  · intro j m hfu hfs hws hst
    have hc := connect_creates j m hfu hfs hws hst
    have h2 : (connect true j m).1.state = ConnectionState.connecting := by
      rw [hc]
    exact ⟨by rw [hc], h2, connect_connecting true j _ h2⟩

/-- C6 witness: reuse on the open demo manager, and a double `connect` from
an idle manager constructing exactly one transport. -/
theorem C6_connect_idempotent_witness :
    connect true 0 demoMgr = (demoMgr, ⟨false, false, none⟩) ∧
    (connect true 0
        { demoMgr with
          ws := none,
          state := ConnectionState.idle,
          authorized := false }).2.created = true ∧
    connect true 0
        (connect true 0
          { demoMgr with
            ws := none,
            state := ConnectionState.idle,
            authorized := false }).1
      = ((connect true 0
          { demoMgr with
            ws := none,
            state := ConnectionState.idle,
            authorized := false }).1, ⟨false, false, none⟩) :=
  ⟨C6_connect_idempotent.2.1 true 0 demoMgr demoWS rfl rfl rfl rfl rfl,
   (C6_connect_idempotent.2.2.2 0 _ (by decide) (by decide) rfl (by decide)).1,
   (C6_connect_idempotent.2.2.2 0 _ (by decide) (by decide) rfl (by decide)).2.2⟩

/-! ### Claim C7 -/

/-- C7: reconnect scheduling declines when explicitly closed, when the
endpoint URL or session identifier is unset, or when a timer is already
pending (at most one timer at a time); otherwise, for jitter in [0, 300),
the scheduled delay is `min(1000·2^(attempt−1), 15000) + jitter` with
`attempt` the incremented counter clamped at 10 — so it never exceeds
15000 + jitter < 15300 ms, and the first retry (counter 0) uses
1000 + jitter ms. -/
theorem C7_backoff_cap :
    (∀ (j : ℚ) (m : ChatWSManager), m.explicitlyClosed = true →
      scheduleReconnect j m = (m, none)) ∧
    (∀ (j : ℚ) (m : ChatWSManager), m.url = none ∨ m.sessionId = none →
      scheduleReconnect j m = (m, none)) ∧
    (∀ (j : ℚ) (m : ChatWSManager), m.reconnectTimer = true →
      scheduleReconnect j m = (m, none)) ∧
    (∀ (j : ℚ) (m : ChatWSManager), 0 ≤ j → j < 300 →
      m.explicitlyClosed = false → strFalsy m.url = false →
      strFalsy m.sessionId = false → m.reconnectTimer = false →
      scheduleReconnect j m =
        ({ m with
            reconnectAttempts := min (m.reconnectAttempts + 1) 10,
            reconnectTimer := true },
          some (min ((1000 : ℚ) * 2 ^ (min (m.reconnectAttempts + 1) 10 - 1)) 15000 + j)) ∧
      min ((1000 : ℚ) * 2 ^ (min (m.reconnectAttempts + 1) 10 - 1)) 15000 + j ≤ 15000 + j ∧
      min ((1000 : ℚ) * 2 ^ (min (m.reconnectAttempts + 1) 10 - 1)) 15000 + j < 15300 ∧
      (m.reconnectAttempts = 0 →
        min ((1000 : ℚ) * 2 ^ (min (m.reconnectAttempts + 1) 10 - 1)) 15000 + j
          = 1000 + j)) := by
  refine ⟨?_, ?_, ?_, ?_⟩
  · intro j m h
    unfold scheduleReconnect
    simp [h]
  · intro j m h
    unfold scheduleReconnect
    rcases h with h | h <;> by_cases he : m.explicitlyClosed <;> simp [he, strFalsy, h]
  · intro j m h
    unfold scheduleReconnect
    by_cases he : m.explicitlyClosed
    · simp [he]
    · by_cases hf : strFalsy m.url || strFalsy m.sessionId <;> simp [he, hf, h]
  · intro j m hj0 hj3 hec hfu hfs hrt
    have hmin : min ((1000 : ℚ) * 2 ^ (min (m.reconnectAttempts + 1) 10 - 1)) 15000
        ≤ 15000 := min_le_right _ _
    refine ⟨?_, by linarith, by linarith, ?_⟩
    · unfold scheduleReconnect
      simp [hec, hfu, hfs, hrt]
    · intro h0
      rw [h0]
      have h1 : min (0 + 1) 10 = 1 := by norm_num
      rw [h1]
      have h2 : ((1000 : ℚ) * 2 ^ (1 - 1)) = 1000 := by norm_num
      rw [h2, min_eq_left (by norm_num : (1000 : ℚ) ≤ 15000)]

/-- C7 witness: first retry from the closed demo manager with zero jitter. -/
theorem C7_backoff_cap_witness :
    scheduleReconnect 0 { demoMgr with state := ConnectionState.closed } =
      ({ demoMgr with
          state := ConnectionState.closed,
          reconnectAttempts := min (0 + 1) 10,
          reconnectTimer := true },
        some (min ((1000 : ℚ) * 2 ^ (min (0 + 1) 10 - 1)) 15000 + 0)) ∧
    min ((1000 : ℚ) * 2 ^ (min (0 + 1) 10 - 1)) 15000 + 0 = 1000 + 0 ∧
    scheduleReconnect 0 { demoMgr with reconnectTimer := true } =
      ({ demoMgr with reconnectTimer := true }, none) :=
  ⟨(C7_backoff_cap.2.2.2 0 { demoMgr with state := ConnectionState.closed }
      (le_refl 0) (by decide) rfl rfl rfl rfl).1,
   (C7_backoff_cap.2.2.2 0 { demoMgr with state := ConnectionState.closed }
      (le_refl 0) (by decide) rfl rfl rfl rfl).2.2.2 rfl,
   C7_backoff_cap.2.2.1 0 { demoMgr with reconnectTimer := true } rfl⟩

/-! ### Claim C8 -/

/-- The fields `close` always establishes, for any transport state. -/
theorem close_fields (b : Bool) (m : ChatWSManager) :
    (close b m).1.explicitlyClosed = true ∧
    (close b m).1.heartbeatTimer = false ∧
    (close b m).1.state = ConnectionState.closed ∧
    (close b m).1.ws = none ∧
    (close b m).1.reconnectTimer = false ∧
    (close b m).1.sendQueue = [] ∧
    (close b m).1.authorized = false := by
  unfold close
  rcases hw : m.ws with _ | w <;> simp [hw]

/-- With the explicitly-closed flag set, a transport close event invokes
`onClose` but schedules no reconnect and keeps the flag set. -/
theorem onclose_suppressed (j : ℚ) (m : ChatWSManager)
    (h : m.explicitlyClosed = true) :
    onclose j m =
      ({ m with state := ConnectionState.closed, heartbeatTimer := false },
        ⟨true, none⟩) := by
  unfold onclose
  simp [h]

/-- C8: `close()` sets the explicitly-closed flag, stops the heartbeat,
passes the state through Closing to Closed, attempts the transport close
with any close-time error swallowed (the result does not depend on whether
it throws), clears the reconnect timer, empties the queue and resets
Authorized; afterwards no transport close event schedules a reconnection —
the flag persists through close events — until a `connect()` (which clears
the flag) intervenes. -/
theorem C8_close_suppresses_retry :
    (∀ (b : Bool) (m : ChatWSManager) (w : WS), m.ws = some w →
      (close b m).1.explicitlyClosed = true ∧
      (close b m).1.heartbeatTimer = false ∧
      (close b m).2.stateTrace = [ConnectionState.closing, ConnectionState.closed] ∧
      (close b m).1.state = ConnectionState.closed ∧
      (close b m).2.wsCloseAttempted = true ∧
      (close b m).1.ws = none ∧
      (close b m).1.reconnectTimer = false ∧
      (close b m).1.sendQueue = [] ∧
      (close b m).1.authorized = false) ∧
    (∀ m : ChatWSManager, close true m = close false m) ∧
    (∀ (j : ℚ) (b : Bool) (m : ChatWSManager),
      (onclose j (close b m).1).2.scheduledDelay = none ∧
      (onclose j (close b m).1).2.onCloseInvoked = true ∧
      (onclose j (close b m).1).1.reconnectTimer = false) ∧
    (∀ (j : ℚ) (m : ChatWSManager), m.explicitlyClosed = true →
      (onclose j m).2.scheduledDelay = none ∧
      (onclose j m).1.explicitlyClosed = true) ∧
    (∀ (j : ℚ) (m : ChatWSManager),
      strFalsy m.url = false → strFalsy m.sessionId = false →
      m.ws = none → m.state ≠ ConnectionState.connecting →
      (connect true j m).1.explicitlyClosed = false) := by
  refine ⟨?_, ?_, ?_, ?_, ?_⟩
  · intro b m w hws
    have hc := close_fields b m
    refine ⟨hc.1, hc.2.1, ?_, hc.2.2.1, ?_, hc.2.2.2.1, hc.2.2.2.2.1,
      hc.2.2.2.2.2.1, hc.2.2.2.2.2.2⟩
    · unfold close
      simp [hws]
    · unfold close
      simp [hws]
  · intro m
    unfold close
    rcases hw : m.ws with _ | w <;> simp [hw]
  · intro j b m
    have h := onclose_suppressed j (close b m).1 (close_fields b m).1
    rw [h]
    exact ⟨rfl, rfl, (close_fields b m).2.2.2.2.1⟩
  · intro j m h
    rw [onclose_suppressed j m h]
    exact ⟨rfl, h⟩
  · intro j m hfu hfs hws hst
    rw [connect_creates j m hfu hfs hws hst]

/-- C8 witness: closing the open demo manager with a queued message and a
pending reconnect timer, then replaying a transport close event. -/
theorem C8_close_suppresses_retry_witness :
    (close true
        { demoMgr with sendQueue := ["q1"], reconnectTimer := true }).1.sendQueue = [] ∧
    (close true
        { demoMgr with sendQueue := ["q1"], reconnectTimer := true }).2.stateTrace
      = [ConnectionState.closing, ConnectionState.closed] ∧
    (onclose 0
        (close true
          { demoMgr with sendQueue := ["q1"], reconnectTimer := true }).1).2.scheduledDelay
      = none ∧
    close true { demoMgr with sendQueue := ["q1"], reconnectTimer := true }
      = close false { demoMgr with sendQueue := ["q1"], reconnectTimer := true } :=
  ⟨(C8_close_suppresses_retry.1 true _ demoWS rfl).2.2.2.2.2.2.2.1,
   (C8_close_suppresses_retry.1 true _ demoWS rfl).2.2.1,
   (C8_close_suppresses_retry.2.2.1 0 true _).1,
   C8_close_suppresses_retry.2.1 _⟩

/-! ### Claim C9 -/

/-- C9: `ensureAuthorized(timeoutMs)` returns `true` immediately, without
registering a waiter, when the transport is open and Authorized; every call
either returns a boolean synchronously or suspends with a fresh waiter whose
timer is registered with the given duration (it never throws); when the
timer fires on an unsettled waiter the call resolves `false` and the
manager's waiter slot is cleared, after which a late resolution has no
effect; when the Authorization Gate resolves the waiter first the timer is
cancelled and a late firing has no effect. -/
theorem C9_ensureAuthorized_deadline :
    (∀ (ctorOk : Bool) (j : ℚ) (t : Nat) (m : ChatWSManager) (w : WS),
      m.ws = some w → w.readyState = WS.OPEN → m.authorized = true →
      ensureAuthorized ctorOk j t m = (m, EnsureOutcome.immediate true)) ∧
    (∀ (ctorOk : Bool) (j : ℚ) (t : Nat) (m : ChatWSManager),
      (ensureAuthorized ctorOk j t m).2 = EnsureOutcome.immediate true ∨
      ((ensureAuthorized ctorOk j t m).2 = EnsureOutcome.suspended ⟨false, true, t⟩ ∧
        (ensureAuthorized ctorOk j t m).1.awaitingAuthResolve = true)) ∧
    (∀ (m : ChatWSManager) (w : PendingWaiter), w.settled = false →
      (waiterTimeout m w).2.2 = some false ∧
      (waiterTimeout m w).1.awaitingAuthResolve = false ∧
      (waiterTimeout m w).2.1.settled = true ∧
      (waiterResolve true (waiterTimeout m w).2.1).2 = none) ∧
    (∀ w : PendingWaiter, w.settled = false →
      (waiterResolve true w).2 = some true ∧
      (waiterResolve true w).1.timerActive = false ∧
      ∀ m : ChatWSManager, (waiterTimeout m (waiterResolve true w).1).2.2 = none) := by
  refine ⟨?_, ?_, ?_, ?_⟩
  · intro ctorOk j t m w hws hopen hauth
    unfold ensureAuthorized
    simp [wsOpen, hws, hopen, hauth]
  · intro ctorOk j t m
    unfold ensureAuthorized
    by_cases h1 : wsOpen m && m.authorized
    · simp [h1]
    · by_cases h2 : (if wsOpen m then m else (connect ctorOk j m).1).authorized
      · simp [h1, h2]
      · simp [h1, h2]
  · intro m w h
    unfold waiterTimeout
    simp [h, waiterResolve]
  · intro w h
    unfold waiterResolve
    simp [h, waiterTimeout]

/-- C9 witness: the fast path on the open authorized demo manager, and the
two event orders on a fresh waiter with a 50 ms timer. -/
theorem C9_ensureAuthorized_deadline_witness :
    ensureAuthorized true 0 50 demoMgr = (demoMgr, EnsureOutcome.immediate true) ∧
    (waiterTimeout demoMgr ⟨false, true, 50⟩).2.2 = some false ∧
    (waiterResolve true (waiterTimeout demoMgr ⟨false, true, 50⟩).2.1).2 = none ∧
    (waiterResolve true ⟨false, true, 50⟩).1.timerActive = false ∧
    (waiterTimeout demoMgr (waiterResolve true ⟨false, true, 50⟩).1).2.2 = none :=
  ⟨C9_ensureAuthorized_deadline.1 true 0 50 demoMgr demoWS rfl rfl rfl,
   (C9_ensureAuthorized_deadline.2.2.1 demoMgr ⟨false, true, 50⟩ rfl).1,
   (C9_ensureAuthorized_deadline.2.2.1 demoMgr ⟨false, true, 50⟩ rfl).2.2.2,
   (C9_ensureAuthorized_deadline.2.2.2 ⟨false, true, 50⟩ rfl).2.1,
   (C9_ensureAuthorized_deadline.2.2.2 ⟨false, true, 50⟩ rfl).2.2 demoMgr⟩

/-! ### Claim C10 -/

/-- C10: `updateSessionContext` while Open with any of the three context
fields changed invokes `close()` — discarding every queued message and
setting the explicitly-closed flag, so nothing queued under the previous
context is delivered to the new target; when the state is not Open only the
three stored context fields change. -/
theorem C10_updateSessionContext_frame :
    (∀ (o : SessionOptions) (m : ChatWSManager) (w : WS),
      m.state = ConnectionState.«open» → m.ws = some w →
      (m.url ≠ some o.url ∨ m.sessionId ≠ some o.sessionId ∨
        m.isAssistantMode ≠ o.isAssistantMode) →
      (updateSessionContext o m).2 = true ∧
      (updateSessionContext o m).1.sendQueue = [] ∧
      (updateSessionContext o m).1.explicitlyClosed = true ∧
      (updateSessionContext o m).1.state = ConnectionState.closed ∧
      (updateSessionContext o m).1.ws = none ∧
      (updateSessionContext o m).1.authorized = false) ∧
    (∀ (o : SessionOptions) (m : ChatWSManager),
      m.state ≠ ConnectionState.«open» →
      updateSessionContext o m =
        ({ m with
            url := some o.url,
            sessionId := some o.sessionId,
            isAssistantMode := o.isAssistantMode }, false)) := by
  constructor
  · intro o m w hst hws hch
    have hu : updateSessionContext o m =
        ((close false
          { m with
            url := some o.url,
            sessionId := some o.sessionId,
            isAssistantMode := o.isAssistantMode }).1, true) := by
      rcases hch with h | h | h <;> simp [updateSessionContext, hws, hst, h]
    have hc := close_fields false
      ({ m with
          url := some o.url,
          sessionId := some o.sessionId,
          isAssistantMode := o.isAssistantMode } : ChatWSManager)
    rw [hu]
    exact ⟨rfl, hc.2.2.2.2.2.1, hc.1, hc.2.2.1, hc.2.2.2.1, hc.2.2.2.2.2.2⟩
  · intro o m hst
    simp [updateSessionContext, hst]

/-- C10 witness: a context change while Open discards the queue; a context
change while Closed only stores the fields. -/
theorem C10_updateSessionContext_frame_witness :
    (updateSessionContext ⟨"ws://other", "s2", false⟩
        { demoMgr with sendQueue := ["q1", "q2"] }).1.sendQueue = [] ∧
    (updateSessionContext ⟨"ws://other", "s2", false⟩
        { demoMgr with sendQueue := ["q1", "q2"] }).2 = true ∧
    updateSessionContext ⟨"ws://other", "s2", false⟩
        { demoMgr with state := ConnectionState.closed }
      = ({ demoMgr with
            state := ConnectionState.closed,
            url := some "ws://other",
            sessionId := some "s2",
            isAssistantMode := false }, false) :=
  ⟨(C10_updateSessionContext_frame.1 ⟨"ws://other", "s2", false⟩ _ demoWS rfl rfl
      (Or.inl (by decide))).2.1,
   (C10_updateSessionContext_frame.1 ⟨"ws://other", "s2", false⟩ _ demoWS rfl rfl
      (Or.inl (by decide))).1,
   C10_updateSessionContext_frame.2 ⟨"ws://other", "s2", false⟩ _ (by decide)⟩

end FishChat
